import Mathlib

/-!
Shallow embedding of the meeting-automation agent repository
(`my-awesome-agent/app/agent.py` and
`meeting-automation-agent/app/utils/action_item_tools.py`).

Sessions are Python dicts; here a `Session` records the two keys the tools
touch (`moms`, `summaries`), with `none` standing for an absent key.
External effects (HTTP POSTs, SMTP submissions) are modelled by "world"
records supplying the outcome of each external call, and each tool returns
its output string together with the list of external calls it performed
and the (unchanged) session, mirroring the Python functions, none of which
ever assigns into the session dict.

Python string primitives (`in`, `str.lower`, `str.strip`, `str.replace`,
`re.search` with word boundaries) are re-implemented structurally on
`List Char` so that all definitions reduce in the kernel.  They model the
ASCII fragment, which covers every keyword and every concrete input used
below.
-/

/-- Python truthiness of an optional environment-variable value:
`None` and the empty string are falsy. -/
def pyFalsy : Option String → Bool
  | none => true
  | some s => s.isEmpty

/-- Rendering of a `str`-or-`None` value inside a Python f-string. -/
def pyShow : Option String → String
  | none => "None"
  | some s => s

/-- A single-quote character, used by several Python f-strings. -/
def pyQuote : String := (Char.ofNat 39).toString

/-- Python `str.lower` (ASCII fragment). -/
def pyLower (s : String) : String := String.mk (s.data.map Char.toLower)

/-- Whitespace characters stripped by Python `str.strip()`. -/
def isPySpace (c : Char) : Bool :=
  c = ' ' || c = Char.ofNat 9 || c = Char.ofNat 10 || c = Char.ofNat 13 ||
  c = Char.ofNat 11 || c = Char.ofNat 12

/-- Python `str.strip()`: drop leading and trailing whitespace. -/
def pyStrip (s : String) : String :=
  String.mk (((s.data.dropWhile isPySpace).reverse.dropWhile isPySpace).reverse)

/-- Substring occurrence on character lists (Python `sub in s`). -/
def containsSubList (pat : List Char) : List Char → Bool
  | [] => pat.isEmpty
  | c :: rest => pat.isPrefixOf (c :: rest) || containsSubList pat rest

/-- Python `pat in s` substring test. -/
def pyIn (pat s : String) : Bool := containsSubList pat.data s.data

/-- Python `s.replace(pat, repl)` on character lists: replace every
non-overlapping occurrence, scanning left to right, with explicit fuel so
the recursion is structural (fuel is consumed once per scanned position
and never runs out when initialised to the list length).  For the empty
pattern this is the identity; the source only replaces non-empty
patterns. -/
def pyReplaceFuel (pat repl : List Char) : Nat → List Char → List Char
  | 0, s => s
  | _ + 1, [] => []
  | fuel + 1, c :: rest =>
    if pat ≠ [] ∧ pat.isPrefixOf (c :: rest) then
      repl ++ pyReplaceFuel pat repl fuel ((c :: rest).drop pat.length)
    else
      c :: pyReplaceFuel pat repl fuel rest

/-- Python `s.replace(pat, repl)` on character lists. -/
def pyReplaceList (pat repl s : List Char) : List Char :=
  pyReplaceFuel pat repl s.length s

/-- Python `s.replace(pat, repl)`. -/
def pyReplace (s pat repl : String) : String :=
  String.mk (pyReplaceList pat.data repl.data s.data)

/-- A regex word character (`\w`, ASCII fragment). -/
def isWordChar (c : Char) : Bool := c.isAlphanum || c = '_'

/-- The character following a candidate match must not be a word
character (the trailing `\b` of the pattern). -/
def wordAfterOk (w s : List Char) : Bool :=
  match s.drop w.length with
  | [] => true
  | c :: _ => !(isWordChar c)

/-- Does the word-bounded pattern `w` match at the start of `s`, where
`prev` is the character immediately before `s` (if any)?  Models
`\b w \b` for patterns beginning and ending in word characters. -/
def wordMatchFrom (w s : List Char) (prev : Option Char) : Bool :=
  w.isPrefixOf s &&
  (match prev with
   | none => true
   | some c => !(isWordChar c)) &&
  wordAfterOk w s

/-- Scan all positions of `s` for a word-bounded occurrence of `w`. -/
def wordSearchAux (w : List Char) (s : List Char) (prev : Option Char) : Bool :=
  match s with
  | [] => wordMatchFrom w [] prev
  | c :: rest => wordMatchFrom w s prev || wordSearchAux w rest (some c)

/-- Python `re.search(r'\b(w)\b', s) is not None` for a single
alternative `w` that begins and ends with word characters. -/
def reWordSearch (w : String) (s : String) : Bool :=
  wordSearchAux w.data s.data none

/-- Python `int(s)` for a decimal string: optional surrounding
whitespace, optional sign, then at least one digit. -/
def pyParseInt (s : String) : Option Int :=
  let t := pyStrip s
  match t.data with
  | [] => none
  | c :: rest =>
    let signed : Option (Int × List Char) :=
      if c = '-' then some (-1, rest)
      else if c = '+' then some (1, rest)
      else some (1, c :: rest)
    match signed with
    | some (sign, ds) =>
      if ds ≠ [] ∧ ds.all Char.isDigit then
        some (sign * (ds.foldl (fun n d => n * 10 + (d.toNat - 48)) 0 : Nat))
      else none
    | none => none

/-! ## Data model

`MoMPayload` models the JSON object produced by the model's structured
extraction call: every recognized key is optional (the Python code reads
each with `dict.get` and a default). -/

/-- One element of the MoM's `action_items` array. -/
structure ActionItem where
  action : Option String
  owner : Option String
  due_date : Option String
deriving DecidableEq, Inhabited

/-- The parsed "Minutes of Meeting" JSON object. -/
structure MoMPayload where
  title : Option String
  summary : Option String
  decisions : Option (List String)
  action_items : Option (List ActionItem)
  attendees : Option (List String)
deriving DecidableEq, Inhabited

/-- An element of `session["moms"]`: `{"url": ..., "mom": ...}`. -/
structure MomRecord where
  url : String
  mom : MoMPayload
deriving DecidableEq, Inhabited

/-- An element of `session["summaries"]`: `{"url": ..., "summary": ...}`. -/
structure SummaryRecord where
  url : String
  summary : String
deriving DecidableEq, Inhabited

/-- The session dict, restricted to the keys the tools touch; `none`
means the key is absent. -/
structure Session where
  moms : Option (List MomRecord)
  summaries : Option (List SummaryRecord)
deriving DecidableEq, Inhabited

/-- The guard `"moms" not in session or not session["moms"]` shared by
every consumer. -/
def noMoms (session : Session) : Bool :=
  match session.moms with
  | none => true
  | some l => l.isEmpty

/-- `session["moms"][-1]["mom"]`, the latest MoM (only evaluated by the
source after the `noMoms` guard, so the default is never reached). -/
def latestMomGet (session : Session) : MoMPayload :=
  ((session.moms.getD []).getLastD default).mom

/-! ## Action classifier: `analyze_mom_for_actions` -/

/-- Keyword test for the classifier's JIRA bucket
(`"jira" in action_text or "create ticket" in action_text`). -/
def ticketKw (t : String) : Bool := pyIn "jira" t || pyIn "create ticket" t

/-- Keyword test for the classifier's schedule bucket
(`"schedule" in ... or "invite" in ... or "call" in ...`). -/
def schedKw (t : String) : Bool :=
  pyIn "schedule" t || pyIn "invite" t || pyIn "call" t

/-- The classifier's loop: accumulates `jira_items` and `schedule_items`
(each entry is the raw `item.get("action")` value) in list order. -/
def analyzeBucketsAux : List ActionItem → List (Option String) → List (Option String) →
    List (Option String) × List (Option String)
  | [], jira_items, schedule_items => (jira_items, schedule_items)
  | item :: rest, jira_items, schedule_items =>
    let action_text := pyLower (item.action.getD "")
    let jira2 := if ticketKw action_text then jira_items ++ [item.action] else jira_items
    let sched2 := if schedKw action_text then schedule_items ++ [item.action] else schedule_items
    analyzeBucketsAux rest jira2 sched2

/-- Both keyword buckets of `analyze_mom_for_actions`. -/
def analyzeBuckets (items : List ActionItem) : List (Option String) × List (Option String) :=
  analyzeBucketsAux items [] []

/-- The "I can create JIRA tickets" section of the suggestion string. -/
def jiraSection (l : List (Option String)) : String :=
  "\n- I can create JIRA tickets for the following items:\n" ++
  String.join (l.map (fun i => "  - " ++ pyQuote ++ pyShow i ++ pyQuote ++ "\n"))

/-- The "I can schedule calls" section of the suggestion string. -/
def schedSection (l : List (Option String)) : String :=
  "\n- I can schedule calls for the following items:\n" ++
  String.join (l.map (fun i => "  - " ++ pyQuote ++ pyShow i ++ pyQuote ++ "\n"))

/-- `analyze_mom_for_actions(session)` from
`meeting-automation-agent/app/utils/action_item_tools.py`.  Pure: the
source performs no external call and never writes to the session. -/
def analyze_mom_for_actions (session : Session) : String :=
  if noMoms session then
    "No Minutes of Meeting (MoM) found in the session to analyze."
  else
    let mom_json := latestMomGet session
    let action_items := mom_json.action_items.getD []
    if action_items.isEmpty then
      "No action items found in the latest MoM."
    else
      let b := analyzeBuckets action_items
      let jira_items := b.1
      let schedule_items := b.2
      let found_actions := !jira_items.isEmpty || !schedule_items.isEmpty
      let suggestions :=
        if found_actions then
          "Based on the latest MoM, I found the following potential actions:\n" ++
          (if jira_items.isEmpty then "" else jiraSection jira_items) ++
          (if schedule_items.isEmpty then "" else schedSection schedule_items)
        else
          "I analyzed the MoM but did not find any specific action items for creating JIRA tickets or scheduling calls."
      suggestions ++ "\nI can also send the MoM to a Slack channel. What would you like to do?"

/-! ## Ticket executor: `create_jira_ticket` -/

/-- The JIRA-related environment variables. -/
structure JiraEnv where
  jiraUrl : Option String
  jiraUsername : Option String
  jiraApiToken : Option String
deriving DecidableEq, Inhabited

/-- Outcome of the `requests.post` to the issue-creation endpoint:
a 2xx response whose JSON carries an optional `key`, a 2xx response whose
body handling raises a non-requests exception, or a transport/HTTP error
(`raise_for_status` included). -/
inductive JiraHttp where
  | okKey (key : Option String)
  | badJson (e : String)
  | reqError (e : String)
deriving DecidableEq, Inhabited

/-- Environment plus the outcome of the (at most one) HTTP POST. -/
structure JiraWorld where
  env : JiraEnv
  http : JiraHttp
deriving DecidableEq, Inhabited

/-- The observable content of one issue-creation POST. -/
structure JiraPost where
  endpoint : String
  projectKey : String
  summary : String
  description : String
  issuetypeId : String
deriving DecidableEq, Inhabited

/-- Result of `create_jira_ticket`: the returned value (`none` models the
Python function falling off the end and returning `None`), the POSTs
performed, and the session (never written by the source). -/
structure JiraResult where
  out : Option String
  posts : List JiraPost
  session : Session
deriving DecidableEq, Inhabited

/-- `re.search(r'\b(Jira|JIRA|ticket|create ticket)\b', t, re.IGNORECASE)`
on the already lower-cased `t` (so both `Jira` alternatives collapse to
`jira`). -/
def jiraTicketRegex (t : String) : Bool :=
  reWordSearch "jira" t || reWordSearch "ticket" t || reWordSearch "create ticket" t

/-- The `description` f-string of `create_jira_ticket`. -/
def jiraDescription (action_text : String) (item : ActionItem) : String :=
  "Action from MOM:\n" ++ action_text ++ "\n\nOwner: " ++ item.owner.getD "N/A" ++
  "\nDue Date: " ++ item.due_date.getD "N/A"

/-- The `for item in action_items` loop of `create_jira_ticket`: every
branch under a regex match returns, so at most one POST is ever made,
and when no item matches the loop falls off the end (`out = none`). -/
def jiraLoop (w : JiraWorld) (session : Session) : List ActionItem → JiraResult
  | [] => ⟨none, [], session⟩
  | item :: rest =>
    let action_text := pyLower (item.action.getD "")
    if jiraTicketRegex action_text then
      if pyFalsy w.env.jiraUrl || pyFalsy w.env.jiraUsername || pyFalsy w.env.jiraApiToken then
        ⟨some "Error: JIRA environment variables are not fully set.", [], session⟩
      else
        let post : JiraPost :=
          ⟨pyShow w.env.jiraUrl ++ "/rest/api/3/issue", "KAN",
           "Meeting Action: " ++ action_text, jiraDescription action_text item, "10001"⟩
        match w.http with
        | JiraHttp.okKey key =>
          ⟨some ("Simulated JIRA ticket creation: Ticket ID " ++ pyQuote ++ pyShow key ++
                 pyQuote ++ ", Ticket URL " ++ pyQuote ++ pyShow w.env.jiraUrl ++ "/browse/" ++
                 pyShow key ++ pyQuote),
           [post], session⟩
        | JiraHttp.badJson e => ⟨some ("An unexpected error occurred: " ++ e), [post], session⟩
        | JiraHttp.reqError e => ⟨some ("Failed to create Jira ticket: " ++ e), [post], session⟩
    else
      jiraLoop w session rest

/-- `create_jira_ticket(session)` from
`meeting-automation-agent/app/utils/action_item_tools.py`. -/
def create_jira_ticket (w : JiraWorld) (session : Session) : JiraResult :=
  if noMoms session then
    ⟨some "No Minutes of Meeting (MoM) found in the session to analyze.", [], session⟩
  else
    let mom_json := latestMomGet session
    let action_items := mom_json.action_items.getD []
    if action_items.isEmpty then
      ⟨some "No action items found in the latest MoM.", [], session⟩
    else
      jiraLoop w session action_items

/-- Number of action items matching the ticket executor's own regex. -/
def jiraMatchingCount (items : List ActionItem) : Nat :=
  (items.filter (fun i => jiraTicketRegex (pyLower (i.action.getD "")))).length

/-! ## Call-scheduling executor: `schedule_call` -/

/-- `SENDER_EMAIL` / `SENDER_PASSWORD`. -/
structure SchedEnv where
  senderEmail : Option String
  senderPassword : Option String
deriving DecidableEq, Inhabited

/-- Outcome of an SMTP login-and-send attempt. -/
inductive SmtpOutcome where
  | sent
  | failed (e : String)
deriving DecidableEq, Inhabited

/-- Environment plus the outcome of the (at most one) SMTP submission. -/
structure SchedWorld where
  env : SchedEnv
  smtp : SmtpOutcome
deriving DecidableEq, Inhabited

/-- Result of `schedule_call`: returned value (`none` models falling off
the end), recipients of attempted invite emails, unchanged session. -/
structure SchedResult where
  out : Option String
  sends : List String
  session : Session
deriving DecidableEq, Inhabited

/-- `re.search(r'\b(schedule a call|set up a meeting|gmeet invite|calendar invite|meeting)\b', t, re.IGNORECASE)`
on the already lower-cased `t`. -/
def schedCallRegex (t : String) : Bool :=
  reWordSearch "schedule a call" t || reWordSearch "set up a meeting" t ||
  reWordSearch "gmeet invite" t || reWordSearch "calendar invite" t ||
  reWordSearch "meeting" t

/-- The hard-coded attendee address of the scheduling path. -/
def schedAttendee : String := "abhishek.chauhan@neosalpha.com"

/-- The `for item in action_items` loop of `schedule_call`: every branch
under a regex match returns (the invite body, built from fixed literals
and the invocation time, never reaches the returned string and is not
modelled); no match falls off the end. -/
def schedLoop (w : SchedWorld) (session : Session) : List ActionItem → SchedResult
  | [] => ⟨none, [], session⟩
  | item :: rest =>
    let action_text := pyLower (item.action.getD "")
    if schedCallRegex action_text then
      if pyFalsy w.env.senderEmail || pyFalsy w.env.senderPassword then
        ⟨some "Error: Email credentials not configured in environment variables.", [], session⟩
      else
        match w.smtp with
        | SmtpOutcome.sent =>
          ⟨some "Meeting invite sent successfully via SMTP with an HTML body and calendar attachment.",
           [schedAttendee], session⟩
        | SmtpOutcome.failed e =>
          ⟨some ("Failed to send email invite: " ++ e), [schedAttendee], session⟩
    else
      schedLoop w session rest

/-- `schedule_call(session)` from
`meeting-automation-agent/app/utils/action_item_tools.py` (note: no
empty-`action_items` early return in the source). -/
def schedule_call (w : SchedWorld) (session : Session) : SchedResult :=
  if noMoms session then
    ⟨some "Error: No MoM found in session to create a call from.", [], session⟩
  else
    schedLoop w session ((latestMomGet session).action_items.getD [])

/-! ## Chat executor: `send_to_slack` -/

/-- Outcome of the `chat.postMessage` POST: transport/HTTP failure, or a
2xx response whose JSON body carries optional `ok` and `error` fields. -/
inductive SlackHttp where
  | reqError (e : String)
  | body (ok : Option Bool) (error : Option String)
deriving DecidableEq, Inhabited

/-- `SLACK_API_TOKEN` plus the outcome of the (at most one) POST. -/
structure SlackWorld where
  token : Option String
  http : SlackHttp
deriving DecidableEq, Inhabited

/-- The observable content of one `chat.postMessage` POST. -/
structure SlackPost where
  channel : String
  text : String
deriving DecidableEq, Inhabited

/-- Result of `send_to_slack`. -/
structure SlackSendResult where
  out : String
  posts : List SlackPost
  session : Session
deriving DecidableEq, Inhabited

/-- Python truthiness of `response_json.get("ok")`. -/
def pyTruthyBoolOpt : Option Bool → Bool
  | some true => true
  | _ => false

/-- The `slack_message_text` f-string (the two literals copied from the
source include its mojibake bullet and pin characters verbatim). -/
def slackText (mom : MoMPayload) : String :=
  let title := mom.title.getD "Meeting Minutes"
  let summary := mom.summary.getD "No summary provided."
  let decisions := String.intercalate "\n"
    ((mom.decisions.getD []).map (fun d => "- â€¢ " ++ d))
  let action_items := String.intercalate "\n"
    ((mom.action_items.getD []).map (fun a =>
      "- *Action:* " ++ pyShow a.action ++ "\n  - *Owner:* " ++ a.owner.getD "N/A" ++
      "\n  - *Due Date:* " ++ a.due_date.getD "N/A"))
  "ðŸ“Œ *Minutes of Meeting: " ++ title ++ "*\n\n" ++
  "*Summary*\n" ++ summary ++ "\n\n" ++
  "*Decisions*\n" ++ decisions ++ "\n\n" ++
  "*Action Items*\n" ++ action_items

/-- `send_to_slack(channel, session)` from
`meeting-automation-agent/app/utils/action_item_tools.py`. -/
def send_to_slack (w : SlackWorld) (channel : String) (session : Session) : SlackSendResult :=
  if noMoms session then
    ⟨"No Minutes of Meeting (MoM) found in the session to analyze.", [], session⟩
  else
    let mom_data := latestMomGet session
    if pyFalsy w.token then
      ⟨"Error: SLACK_API_TOKEN environment variable not set.", [], session⟩
    else
      let post : SlackPost := ⟨channel, slackText mom_data⟩
      match w.http with
      | SlackHttp.reqError e => ⟨"Failed to send message to Slack: " ++ e, [post], session⟩
      | SlackHttp.body ok err =>
        if pyTruthyBoolOpt ok then
          ⟨"MOM successfully posted to Slack channel " ++ channel ++ ".", [post], session⟩
        else
          ⟨"Failed to post to Slack: " ++ pyShow err, [post], session⟩

/-! ## Email executor: `send_email` -/

/-- `SMTP_HOST` / `SMTP_PORT` / `SMTP_USERNAME` / `SMTP_PASSWORD`. -/
structure SmtpEnv where
  smtpHost : Option String
  smtpPort : Option String
  smtpUsername : Option String
  smtpPassword : Option String
deriving DecidableEq, Inhabited

/-- Environment plus the outcome of the (at most one) SMTP submission. -/
structure EmailWorld where
  env : SmtpEnv
  smtp : SmtpOutcome
deriving DecidableEq, Inhabited

/-- The observable content of one SMTP submission of the MoM email. -/
structure EmailSend where
  host : String
  port : Int
  recipient : String
  html : String
deriving DecidableEq, Inhabited

/-- Result of `send_email`. -/
structure EmailResult where
  out : String
  sends : List EmailSend
  session : Session
deriving DecidableEq, Inhabited

/-- One `<li>` of the decisions list in the email body. -/
def emailDecisionLi (d : String) : String := "<li>&#x2022; " ++ d ++ "</li>"

/-- One `<tr>` of the action-items table in the email body:
`f'<tr><td>\x7ba.get("action")\x7d</td><td>\x7ba.get("owner")\x7d</td><td>\x7ba.get("due_date", "TBD")\x7d</td></tr>'`. -/
def emailActionRow (a : ActionItem) : String :=
  "<tr><td>" ++ pyShow a.action ++ "</td><td>" ++ pyShow a.owner ++ "</td><td>" ++
  a.due_date.getD "TBD" ++ "</td></tr>"

/-- The `html_body` f-string of `send_email` up to and including the
opening of `<tbody>` (literal braces of the CSS written as `\x7b`/`\x7d`). -/
def emailBodyHead (mom : MoMPayload) : String :=
  "\n    <html>\n        <head>\n            <style>\n" ++
  "                body \x7b font-family: Arial, sans-serif; line-height: 1.6; color: #333; \x7d\n" ++
  "                .container \x7b max-width: 700px; margin: auto; padding: 20px; border: 1px solid #ddd; border-radius: 8px; \x7d\n" ++
  "                h2, h3 \x7b color: #0056b3; \x7d\n" ++
  "                ul \x7b list-style-type: none; padding: 0; \x7d\n" ++
  "                li \x7b margin-bottom: 10px; \x7d\n" ++
  "                table \x7b width: 100%; border-collapse: collapse; margin-top: 15px; \x7d\n" ++
  "                th, td \x7b padding: 12px; border: 1px solid #ccc; text-align: left; \x7d\n" ++
  "                th \x7b background-color: #f2f2f2; \x7d\n" ++
  "            </style>\n        </head>\n        <body>\n            <div class=\"container\">\n" ++
  "                <h3>Summary</h3>\n                <p>" ++ mom.summary.getD "No summary provided." ++
  "</p>\n                <h3>Decisions</h3>\n                <ul>\n                    " ++
  String.join ((mom.decisions.getD []).map emailDecisionLi) ++
  "\n                </ul>\n                <h3>Action Items</h3>\n                <table>\n" ++
  "                    <thead>\n                        <tr>\n" ++
  "                            <th>Action</th>\n                            <th>Owner</th>\n" ++
  "                            <th>Due Date</th>\n                        </tr>\n" ++
  "                    </thead>\n                    <tbody>\n                        "

/-- The tail of the `html_body` f-string after the action-item rows. -/
def emailBodyTail : String :=
  "\n                    </tbody>\n                </table>\n            </div>\n        </body>\n    </html>\n    "

/-- The full `html_body` of `send_email`. -/
def emailHtmlBody (mom : MoMPayload) : String :=
  emailBodyHead mom ++ String.join ((mom.action_items.getD []).map emailActionRow) ++ emailBodyTail

/-- `send_email(to_email, session)` from `my-awesome-agent/app/agent.py`. -/
def send_email (w : EmailWorld) (to_email : String) (session : Session) : EmailResult :=
  if noMoms session then
    ⟨"Error: No Minutes of Meeting (MoM) found in the session.", [], session⟩
  else
    let mom_json := latestMomGet session
    if pyFalsy w.env.smtpHost || pyFalsy w.env.smtpPort ||
       pyFalsy w.env.smtpUsername || pyFalsy w.env.smtpPassword then
      ⟨"Error: SMTP environment variables (SMTP_HOST, SMTP_PORT, SMTP_USERNAME, SMTP_PASSWORD) are not set.", [], session⟩
    else
      match pyParseInt (w.env.smtpPort.getD "") with
      | none => ⟨"Error: SMTP_PORT must be an integer.", [], session⟩
      | some port =>
        let send : EmailSend := ⟨pyShow w.env.smtpHost, port, to_email, emailHtmlBody mom_json⟩
        match w.smtp with
        | SmtpOutcome.sent => ⟨"Email sent successfully!", [send], session⟩
        | SmtpOutcome.failed e =>
          ⟨"An error occurred while sending the email: " ++ e, [send], session⟩

/-! ## Transcript ingestion: `fetch_and_process_url` -/

/-- Outcome of `requests.get(url, timeout=10)` followed by
`raise_for_status()`: the fetched content, or a `RequestException`. -/
inductive FetchResult where
  | success (content : String)
  | reqError (e : String)

/-- The external collaborators of one ingestion call: the fetch outcome,
the text of the two generative-model responses, and the behaviour of
`json.loads` on the processed MoM text (`none` models a
`json.JSONDecodeError`; a parsed object is read through `MoMPayload`,
whose optional fields mirror the consumers' `dict.get` defaults). -/
structure IngestWorld where
  fetch : FetchResult
  summaryText : String
  momText : String
  parseJson : String → Option MoMPayload

/-- The code-fence stripping applied to the model's MoM response:
`response.text.strip().replace("```json", "").replace("```", "")`. -/
def momJsonStr (momText : String) : String :=
  pyReplace (pyReplace (pyStrip momText) "```json" "") "```" ""

/-- `fetch_and_process_url(url, session)` from
`my-awesome-agent/app/agent.py`: returns the status string and the
resulting session (both appends happen only after every fallible step
has succeeded). -/
def fetch_and_process_url (w : IngestWorld) (url : String) (session : Session) :
    String × Session :=
  match w.fetch with
  | FetchResult.reqError e => ("Error: Failed to fetch the URL. Details: " ++ e, session)
  | FetchResult.success text_content =>
    if text_content = "" then
      ("Could not extract any text from the provided URL.", session)
    else
      let summary := pyStrip w.summaryText
      match w.parseJson (momJsonStr w.momText) with
      | none =>
        ("Error: Failed to decode the MoM JSON from the model" ++ pyQuote ++ "s response.",
         session)
      | some mom =>
        ("Summary and MoM of " ++ url ++ " have been fetched and saved to session.",
         { moms := some (session.moms.getD [] ++ [⟨url, mom⟩]),
           summaries := some (session.summaries.getD [] ++ [⟨url, summary⟩]) })

/-! ## Definitions taken from the spec's words (for refinement claims) -/

/-- Modelled from the spec: the ticket-indicating token set claimed for
the classifier — membership of `jira`, `create ticket`, or `ticket` in
the lower-cased action text. -/
def specTicketMatch (t : String) : Bool :=
  pyIn "jira" t || pyIn "create ticket" t || pyIn "ticket" t

/-- Modelled from the spec: the schedule-indicating token set claimed for
the classifier — membership of `schedule`, `invite`, `call`, `meeting`,
`set up a meeting`, or `calendar invite` in the lower-cased action text. -/
def specSchedMatch (t : String) : Bool :=
  pyIn "schedule" t || pyIn "invite" t || pyIn "call" t ||
  pyIn "meeting" t || pyIn "set up a meeting" t || pyIn "calendar invite" t

/-- The spec's session invariant: `moms` is either absent or a non-empty
ordered sequence. -/
def momsInvariant (s : Session) : Prop :=
  s.moms = none ∨ ∃ l, s.moms = some l ∧ l ≠ []

/-! ## Concrete inputs used by witnesses and counterexamples -/

/-- A session whose single MoM has one action item matching no keyword or
regex of either executor. -/
def c2Session : Session :=
  ⟨some [⟨"http://t", ⟨some "Weekly sync", none, none,
     some [⟨some "review the document", some "Bob", none⟩], none⟩⟩], none⟩

/-- The MoM record of the spec's ticket-executor scenario. -/
def c4Rec : MomRecord :=
  ⟨"http://t", ⟨none, none, none,
     some [⟨some "create ticket for follow-up", some "Alice", some "2025-01-10"⟩], none⟩⟩

/-- Session holding exactly the spec's ticket-executor scenario. -/
def c4Session : Session := ⟨some [c4Rec], none⟩

/-- A fully configured ticket world whose POST fails with a transport
error. -/
def c4World : JiraWorld :=
  ⟨⟨some "https://jira.example.com", some "user@example.com", some "tok"⟩,
   JiraHttp.reqError "boom"⟩

/-- A session whose latest MoM has two ticket-matching action items. -/
def c4xSession : Session :=
  ⟨some [⟨"http://t", ⟨none, none, none,
     some [⟨some "create ticket for alpha", none, none⟩,
           ⟨some "create ticket for beta", none, none⟩], none⟩⟩], none⟩

/-- A payload used to stub the structured-extraction call. -/
def c5Payload : MoMPayload := ⟨some "T", none, none, none, none⟩

/-- Ingestion world stubbing both model calls; the MoM text parses to
`c5Payload`. -/
def c5World : IngestWorld :=
  ⟨FetchResult.success "transcript", "a summary", "\x7b\"title\": \"T\"\x7d",
   fun t => if t = "\x7b\"title\": \"T\"\x7d" then some c5Payload else none⟩

/-- Ingestion world whose stubbed free-text summary carries leading and
trailing whitespace. -/
def c5xWorld : IngestWorld :=
  ⟨FetchResult.success "transcript", " stub summary ", "\x7b\x7d",
   fun t => if t = "\x7b\x7d" then some ⟨none, none, none, none, none⟩ else none⟩

/-- The MoM record used by the C6 witness. -/
def c6Rec : MomRecord :=
  ⟨"http://t", ⟨none, none, none, some [⟨some "create a jira ticket", none, none⟩], none⟩⟩

/-- Session holding `c6Rec` only. -/
def c6Session : Session := ⟨some [c6Rec], none⟩

/-- The MoM record of the spec's email scenario: two decisions and one
action item without a due date. -/
def c7Rec : MomRecord :=
  ⟨"http://t", ⟨some "Sync", some "S", some ["d1", "d2"],
     some [⟨some "a1", some "Bob", none⟩], none⟩⟩

/-- Session holding `c7Rec` only. -/
def c7Session : Session := ⟨some [c7Rec], none⟩

/-- The MoM record used by the C8 witness. -/
def c8Rec : MomRecord := ⟨"http://t", ⟨some "Sync", some "S", some ["d1"], some [], none⟩⟩

/-- Session holding `c8Rec` only. -/
def c8Session : Session := ⟨some [c8Rec], none⟩

/-- Ingestion world used by the C9 witness. -/
def c9World : IngestWorld :=
  ⟨FetchResult.success "t", "sum", "\x7b\x7d", fun _ => some ⟨none, none, none, none, none⟩⟩

/-- Ingestion world used by the C10 witness: the fetch itself fails. -/
def c10World : IngestWorld :=
  ⟨FetchResult.reqError "connection timed out", "", "", fun _ => none⟩

/-! ## Helper lemmas -/

/-- The classifier loop is an order-preserving filter of the action list,
for each bucket independently. -/
theorem analyzeBucketsAux_eq (items : List ActionItem) (j s : List (Option String)) :
    analyzeBucketsAux items j s =
      (j ++ (items.filter (fun i => ticketKw (pyLower (i.action.getD "")))).map ActionItem.action,
       s ++ (items.filter (fun i => schedKw (pyLower (i.action.getD "")))).map ActionItem.action) := by
  induction items generalizing j s with
  | nil => simp [analyzeBucketsAux]
  | cons item rest ih =>
    simp only [analyzeBucketsAux]
    by_cases hj : ticketKw (pyLower (item.action.getD "")) <;>
      by_cases hs : schedKw (pyLower (item.action.getD "")) <;>
        simp [hj, hs, ih, List.filter_cons]

/-- Bucket characterization, accumulator-free form. -/
theorem analyzeBuckets_eq (items : List ActionItem) :
    analyzeBuckets items =
      ((items.filter (fun i => ticketKw (pyLower (i.action.getD "")))).map ActionItem.action,
       (items.filter (fun i => schedKw (pyLower (i.action.getD "")))).map ActionItem.action) := by
  simp [analyzeBuckets, analyzeBucketsAux_eq]

/-- The ticket executor's loop never writes the session. -/
theorem jiraLoop_session (w : JiraWorld) (s : Session) (items : List ActionItem) :
    (jiraLoop w s items).session = s := by
  induction items with
  | nil => rfl
  | cons item rest ih =>
    simp only [jiraLoop]
    split
    · split
      · rfl
      · split <;> rfl
    · exact ih

/-- The ticket executor's loop performs at most one POST. -/
theorem jiraLoop_posts_len (w : JiraWorld) (s : Session) (items : List ActionItem) :
    (jiraLoop w s items).posts.length ≤ 1 := by
  induction items with
  | nil => simp [jiraLoop]
  | cons item rest ih =>
    simp only [jiraLoop]
    split
    · split
      · simp
      · split <;> simp
    · exact ih

/-- The scheduling executor's loop never writes the session. -/
theorem schedLoop_session (w : SchedWorld) (s : Session) (items : List ActionItem) :
    (schedLoop w s items).session = s := by
  induction items with
  | nil => rfl
  | cons item rest ih =>
    simp only [schedLoop]
    split
    · split
      · rfl
      · split <;> rfl
    · exact ih

/-- The empty pattern occurs in every list. -/
theorem containsSubList_nil (l : List Char) : containsSubList [] l = true := by
  cases l <;> simp [containsSubList, List.isPrefixOf]

/-- A list never fails a substring search for its own sublist placed
between arbitrary context. -/
theorem containsSubList_append (pre pat suf : List Char) :
    containsSubList pat (pre ++ (pat ++ suf)) = true := by
  induction pre with
  | nil =>
    cases pat with
    | nil => simp [containsSubList_nil]
    | cons c cs =>
      simp only [List.nil_append, List.cons_append, containsSubList, Bool.or_eq_true]
      left
      have h : (c :: cs) <+: (c :: cs) ++ suf := List.prefix_append _ _
      exact List.isPrefixOf_iff_prefix.mpr h
  | cons c cs ih =>
    cases pat with
    | nil => exact containsSubList_nil _
    | cons d ds =>
      simp only [List.cons_append, containsSubList, Bool.or_eq_true]
      right
      exact ih

/-- Python substring search succeeds on `a ++ s ++ b` for pattern `s`. -/
theorem pyIn_append (a s b : String) : pyIn s (a ++ s ++ b) = true := by
  have h : (a ++ s ++ b).data = a.data ++ (s.data ++ b.data) := by
    simp [String.data_append, List.append_assoc]
  simp only [pyIn, h]
  exact containsSubList_append a.data s.data b.data

/-- With `moms = some (ms ++ [r])` the no-MoM guard is passed. -/
theorem noMoms_concat (s : Session) (ms : List MomRecord) (r : MomRecord)
    (hm : s.moms = some (ms ++ [r])) : noMoms s = false := by
  simp [noMoms, hm]

/-- With `moms = some (ms ++ [r])`, `session["moms"][-1]["mom"]` is `r.mom`. -/
theorem latestMomGet_concat (s : Session) (ms : List MomRecord) (r : MomRecord)
    (hm : s.moms = some (ms ++ [r])) : latestMomGet s = r.mom := by
  simp [latestMomGet, hm, List.getLastD_concat]

/-! ## Claims -/

/-- Claim C1: for every Session in which the key `moms` is absent or maps
to an empty sequence, each of the five consumers returns its designated
"no MoM found" message, performs no external call, and leaves the Session
unchanged (`analyze_mom_for_actions` is embedded as a pure function
because its source performs no external call and no session write). -/
theorem claim_C1 (s : Session) (h : s.moms = none ∨ s.moms = some []) :
    analyze_mom_for_actions s = "No Minutes of Meeting (MoM) found in the session to analyze." ∧
    (∀ w : JiraWorld, create_jira_ticket w s =
      ⟨some "No Minutes of Meeting (MoM) found in the session to analyze.", [], s⟩) ∧
    (∀ w : SchedWorld, schedule_call w s =
      ⟨some "Error: No MoM found in session to create a call from.", [], s⟩) ∧
    (∀ (w : SlackWorld) (channel : String), send_to_slack w channel s =
      ⟨"No Minutes of Meeting (MoM) found in the session to analyze.", [], s⟩) ∧
    (∀ (w : EmailWorld) (to_email : String), send_email w to_email s =
      ⟨"Error: No Minutes of Meeting (MoM) found in the session.", [], s⟩) := by
  have hn : noMoms s = true := by
    rcases h with h | h <;> simp [noMoms, h]
  exact ⟨by simp [analyze_mom_for_actions, hn],
         fun w => by simp [create_jira_ticket, hn],
         fun w => by simp [schedule_call, hn],
         fun w channel => by simp [send_to_slack, hn],
         fun w to_email => by simp [send_email, hn]⟩

/-- Claim C1 witness: the empty session, with concrete worlds. -/
theorem claim_C1_witness :
    analyze_mom_for_actions ⟨none, none⟩ =
      "No Minutes of Meeting (MoM) found in the session to analyze." ∧
    create_jira_ticket ⟨⟨none, none, none⟩, JiraHttp.okKey none⟩ ⟨none, none⟩ =
      ⟨some "No Minutes of Meeting (MoM) found in the session to analyze.", [], ⟨none, none⟩⟩ ∧
    schedule_call ⟨⟨none, none⟩, SmtpOutcome.sent⟩ ⟨none, none⟩ =
      ⟨some "Error: No MoM found in session to create a call from.", [], ⟨none, none⟩⟩ :=
  ⟨(claim_C1 ⟨none, none⟩ (Or.inl rfl)).1,
   (claim_C1 ⟨none, none⟩ (Or.inl rfl)).2.1 ⟨⟨none, none, none⟩, JiraHttp.okKey none⟩,
   (claim_C1 ⟨none, none⟩ (Or.inl rfl)).2.2.1 ⟨⟨none, none⟩, SmtpOutcome.sent⟩⟩

/-- Claim C2 (code bug): with a non-empty latest MoM whose only action
item matches neither executor's pattern, both `create_jira_ticket` and
`schedule_call` fall off the end of their loop and return Python `None`
(`out = none`), not a string — contradicting their own docstrings. -/
theorem claim_C2 :
    (create_jira_ticket ⟨⟨some "https://jira.example.com", some "user@example.com", some "tok"⟩,
        JiraHttp.okKey (some "KAN-1")⟩ c2Session).out = none ∧
    (schedule_call ⟨⟨some "sender@example.com", some "pw"⟩, SmtpOutcome.sent⟩ c2Session).out =
      none := by
  decide

/-- Claim C3 counterexample: `file a ticket` contains the spec token
`ticket` and `set up a meeting` contains the spec tokens `meeting` and
`set up a meeting`, yet the classifier places neither item in any
bucket — its code only tests `jira`/`create ticket` and
`schedule`/`invite`/`call`. -/
theorem claim_C3_counterexample :
    analyzeBuckets [⟨some "file a ticket", none, none⟩, ⟨some "set up a meeting", none, none⟩]
      = ([], []) ∧
    specTicketMatch (pyLower "file a ticket") = true ∧
    specSchedMatch (pyLower "set up a meeting") = true := by
  decide

/-- Claim C3 (amended): for every action item, the classifier lower-cases
the `action` text and places the item in the ticket bucket exactly when
the text contains `jira` or `create ticket`, and independently in the
schedule bucket exactly when it contains `schedule`, `invite`, or
`call`; each bucket preserves original list order. -/
theorem claim_C3 (items : List ActionItem) :
    analyzeBuckets items =
      ((items.filter (fun i => ticketKw (pyLower (i.action.getD "")))).map ActionItem.action,
       (items.filter (fun i => schedKw (pyLower (i.action.getD "")))).map ActionItem.action) :=
  analyzeBuckets_eq items

/-- Claim C4 counterexample: with two ticket-matching action items and
valid configuration, exactly one POST is issued (the function returns
after the first match), not one per matching item. -/
theorem claim_C4_counterexample :
    jiraMatchingCount ((latestMomGet c4xSession).action_items.getD []) = 2 ∧
    (create_jira_ticket ⟨⟨some "https://jira.example.com", some "u", some "t"⟩,
        JiraHttp.okKey (some "KAN-1")⟩ c4xSession).posts.length = 1 := by
  decide

/-- Claim C4 (amended): `create_jira_ticket` issues at most one POST per
invocation — for the first ticket-matching action item only; for the
spec's single-matching-item list and valid configuration the single POST
has `fields.summary` containing the action text and `fields.description`
containing `Owner: Alice` and the due date, and a non-2xx response yields
a `RemoteError`-style error string rather than a raised exception. -/
theorem claim_C4 :
    (∀ (w : JiraWorld) (s : Session), (create_jira_ticket w s).posts.length ≤ 1) ∧
    (∀ (w : JiraWorld) (s : Session) (ms : List MomRecord) (r : MomRecord),
      s.moms = some (ms ++ [r]) →
      r.mom.action_items =
        some [⟨some "create ticket for follow-up", some "Alice", some "2025-01-10"⟩] →
      pyFalsy w.env.jiraUrl = false → pyFalsy w.env.jiraUsername = false →
      pyFalsy w.env.jiraApiToken = false →
      ((create_jira_ticket w s).posts.map JiraPost.summary =
         ["Meeting Action: create ticket for follow-up"] ∧
       (create_jira_ticket w s).posts.map JiraPost.description =
         ["Action from MOM:\ncreate ticket for follow-up\n\nOwner: Alice\nDue Date: 2025-01-10"] ∧
       (∀ e, w.http = JiraHttp.reqError e →
         (create_jira_ticket w s).out = some ("Failed to create Jira ticket: " ++ e)))) := by
  constructor
  · intro w s
    unfold create_jira_ticket
    split
    · simp
    · dsimp only
      split
      · simp
      · exact jiraLoop_posts_len w s _
  · intro w s ms r hm hi h1 h2 h3
    have hn := noMoms_concat s ms r hm
    have hl := latestMomGet_concat s ms r hm
    have hreg : jiraTicketRegex "create ticket for follow-up" = true := by decide
    have hlow : pyLower "create ticket for follow-up" = "create ticket for follow-up" := by
      decide
    rcases hh : w.http with key | e | e <;>
      simp [create_jira_ticket, hn, hl, hi, jiraLoop, hreg, hlow, h1, h2, h3,
        jiraDescription, hh]

/-- Claim C4 witness: the spec scenario with a failing POST. -/
theorem claim_C4_witness :
    (create_jira_ticket c4World c4Session).posts.length ≤ 1 ∧
    (create_jira_ticket c4World c4Session).posts.map JiraPost.summary =
      ["Meeting Action: create ticket for follow-up"] ∧
    (create_jira_ticket c4World c4Session).out =
      some ("Failed to create Jira ticket: " ++ "boom") :=
  ⟨claim_C4.1 c4World c4Session,
   (claim_C4.2 c4World c4Session [] c4Rec rfl rfl (by decide) (by decide) (by decide)).1,
   (claim_C4.2 c4World c4Session [] c4Rec rfl rfl (by decide) (by decide) (by decide)).2.2
     "boom" rfl⟩

/-- Claim C5 counterexample: the source stores
`gemini_response.text.strip()`, so with the stubbed free-text summary
` stub summary ` (surrounding whitespace) the stored summary is
`stub summary`, which differs from the stubbed summary — the claim's
equality fails. -/
theorem claim_C5_counterexample :
    ((fetch_and_process_url c5xWorld "http://t" ⟨none, none⟩).2.summaries.getD []).getLast? =
      some ⟨"http://t", "stub summary"⟩ ∧
    ("stub summary" : String) ≠ " stub summary " := by
  decide

/-- Claim C5 (amended): when the fetch succeeds with non-empty content
and the stubbed MoM text parses (after code-fence stripping) to a known
payload, the new last element of `moms` is exactly that payload paired
with the input URL, and the new last element of `summaries` carries the
input URL and the stubbed free-text summary stripped of surrounding
whitespace. -/
theorem claim_C5 (w : IngestWorld) (url : String) (s : Session) (payload : MoMPayload)
    (c : String) (hf : w.fetch = FetchResult.success c) (hc : c ≠ "")
    (hp : w.parseJson (momJsonStr w.momText) = some payload) :
    ((fetch_and_process_url w url s).2.moms.getD []).getLast? = some ⟨url, payload⟩ ∧
    ((fetch_and_process_url w url s).2.summaries.getD []).getLast? =
      some ⟨url, pyStrip w.summaryText⟩ := by
  simp [fetch_and_process_url, hf, hc, hp, List.getLast?_concat]

/-- Claim C5 witness: a stubbed ingestion into the empty session. -/
theorem claim_C5_witness :
    ((fetch_and_process_url c5World "http://t" ⟨none, none⟩).2.moms.getD []).getLast? =
      some ⟨"http://t", c5Payload⟩ ∧
    ((fetch_and_process_url c5World "http://t" ⟨none, none⟩).2.summaries.getD []).getLast? =
      some ⟨"http://t", pyStrip " a summary "⟩ :=
  ⟨(claim_C5 c5World "http://t" ⟨none, none⟩ c5Payload "transcript" rfl (by decide) (by decide)).1,
   by
    have h := (claim_C5 c5World "http://t" ⟨none, none⟩ c5Payload "transcript" rfl (by decide)
      (by decide)).2
    rw [h]
    decide⟩

/-- Claim C6: the classifier's suggestion string enumerates matched items
per bucket in original list order (the buckets are order-preserving
filters), omits a bucket's section when that bucket is empty, and when no
item matches either bucket the returned string carries the "no actionable
items" message in place of the enumeration (the closing Slack offer is
appended to every return). -/
theorem claim_C6 (s : Session) (ms : List MomRecord) (r : MomRecord) (items : List ActionItem)
    (hm : s.moms = some (ms ++ [r])) (hi : r.mom.action_items = some items)
    (hne : items ≠ []) :
    analyze_mom_for_actions s =
      (let j := (items.filter
          (fun i => ticketKw (pyLower (i.action.getD "")))).map ActionItem.action
       let k := (items.filter
          (fun i => schedKw (pyLower (i.action.getD "")))).map ActionItem.action
       (if j = [] ∧ k = [] then
          "I analyzed the MoM but did not find any specific action items for creating JIRA tickets or scheduling calls."
        else
          "Based on the latest MoM, I found the following potential actions:\n" ++
          (if j = [] then "" else jiraSection j) ++
          (if k = [] then "" else schedSection k)) ++
       "\nI can also send the MoM to a Slack channel. What would you like to do?") := by
  have hn := noMoms_concat s ms r hm
  have hl := latestMomGet_concat s ms r hm
  have hie : items.isEmpty = false := by
    cases items with
    | nil => exact absurd rfl hne
    | cons a l => rfl
  simp only [analyze_mom_for_actions, hn, hl, hi, Option.getD_some, hie, analyzeBuckets_eq,
    Bool.false_eq_true, if_false]
  by_cases hj : (items.filter
      (fun i => ticketKw (pyLower (i.action.getD "")))).map ActionItem.action = [] <;>
    by_cases hk : (items.filter
        (fun i => schedKw (pyLower (i.action.getD "")))).map ActionItem.action = [] <;>
      simp [hj, hk]

set_option maxRecDepth 8192 in
/-- Claim C6 witness: one item matching only the ticket bucket — the
ticket section is present, the schedule section omitted. -/
theorem claim_C6_witness :
    analyze_mom_for_actions c6Session =
      "Based on the latest MoM, I found the following potential actions:\n" ++
      jiraSection [some "create a jira ticket"] ++
      "\nI can also send the MoM to a Slack channel. What would you like to do?" := by
  have h := claim_C6 c6Session [] c6Rec [⟨some "create a jira ticket", none, none⟩] rfl rfl
    (by decide)
  rw [h]
  decide

/-- Claim C7: with a non-empty latest MoM, an unset SMTP variable yields
the configuration-error message with no connection attempt; a set but
non-integer `SMTP_PORT` likewise; an action item with no `due_date` is
rendered with `TBD` in the due-date cell of the HTML table; and with
valid configuration the submitted message body is exactly the rendered
HTML of the latest MoM (whose table rows are the `emailActionRow`
strings). -/
theorem claim_C7 (w : EmailWorld) (to_email : String) (s : Session)
    (ms : List MomRecord) (r : MomRecord) (hm : s.moms = some (ms ++ [r])) :
    ((w.env.smtpHost = none ∨ w.env.smtpPort = none ∨ w.env.smtpUsername = none ∨
        w.env.smtpPassword = none) →
      send_email w to_email s =
        ⟨"Error: SMTP environment variables (SMTP_HOST, SMTP_PORT, SMTP_USERNAME, SMTP_PASSWORD) are not set.",
         [], s⟩) ∧
    (pyFalsy w.env.smtpHost = false → pyFalsy w.env.smtpPort = false →
     pyFalsy w.env.smtpUsername = false → pyFalsy w.env.smtpPassword = false →
     pyParseInt (w.env.smtpPort.getD "") = none →
      send_email w to_email s = ⟨"Error: SMTP_PORT must be an integer.", [], s⟩) ∧
    (∀ a : ActionItem, a.due_date = none →
      emailActionRow a =
        "<tr><td>" ++ pyShow a.action ++ "</td><td>" ++ pyShow a.owner ++
        "</td><td>TBD</td></tr>") ∧
    (∀ port : Int, pyFalsy w.env.smtpHost = false → pyFalsy w.env.smtpPort = false →
     pyFalsy w.env.smtpUsername = false → pyFalsy w.env.smtpPassword = false →
     pyParseInt (w.env.smtpPort.getD "") = some port →
      (send_email w to_email s).sends.map EmailSend.html = [emailHtmlBody r.mom]) := by
  have hn := noMoms_concat s ms r hm
  have hl := latestMomGet_concat s ms r hm
  refine ⟨?_, ?_, ?_, ?_⟩
  · intro h
    have hcfg : (pyFalsy w.env.smtpHost || pyFalsy w.env.smtpPort ||
        pyFalsy w.env.smtpUsername || pyFalsy w.env.smtpPassword) = true := by
      rcases h with h | h | h | h <;> simp [h, pyFalsy]
    simp [send_email, hn, hcfg]
  · intro h1 h2 h3 h4 hp
    simp [send_email, hn, h1, h2, h3, h4, hp]
  · intro a ha
    have htail : "</td><td>" ++ ("TBD" ++ "</td></tr>") = "</td><td>TBD</td></tr>" := by
      decide
    simp only [emailActionRow, ha, Option.getD_none, String.append_assoc]
    rw [htail]
  · intro port h1 h2 h3 h4 hp
    rcases hsm : w.smtp with _ | e <;>
      simp [send_email, hn, hl, h1, h2, h3, h4, hp, hsm]

/-- Claim C7 witness: unset `SMTP_HOST` plus the TBD rendering of the
due-date-less action item of `c7Rec`. -/
theorem claim_C7_witness :
    send_email ⟨⟨none, some "587", some "u", some "p"⟩, SmtpOutcome.sent⟩ "to@example.com"
        c7Session =
      ⟨"Error: SMTP environment variables (SMTP_HOST, SMTP_PORT, SMTP_USERNAME, SMTP_PASSWORD) are not set.",
       [], c7Session⟩ ∧
    emailActionRow ⟨some "a1", some "Bob", none⟩ =
      "<tr><td>a1</td><td>Bob</td><td>TBD</td></tr>" := by
  refine ⟨(claim_C7 ⟨⟨none, some "587", some "u", some "p"⟩, SmtpOutcome.sent⟩ "to@example.com"
    c7Session [] c7Rec rfl).1 (Or.inl rfl), ?_⟩
  have h := (claim_C7 ⟨⟨none, some "587", some "u", some "p"⟩, SmtpOutcome.sent⟩ "to@example.com"
    c7Session [] c7Rec rfl).2.2.1 ⟨some "a1", some "Bob", none⟩ rfl
  rw [h]
  decide

/-- Claim C8: `send_to_slack` decides success from the body's `ok` flag:
the body `ok = false, error = channel_not_found` yields the failure
string echoing `channel_not_found`, and `ok = true` yields the success
string containing the channel identifier (both containments witnessed by
`pyIn`). -/
theorem claim_C8 (w : SlackWorld) (channel : String) (s : Session)
    (ms : List MomRecord) (r : MomRecord) (hm : s.moms = some (ms ++ [r]))
    (ht : pyFalsy w.token = false) :
    (w.http = SlackHttp.body (some false) (some "channel_not_found") →
      (send_to_slack w channel s).out = "Failed to post to Slack: channel_not_found") ∧
    (w.http = SlackHttp.body (some true) none →
      (send_to_slack w channel s).out =
        "MOM successfully posted to Slack channel " ++ channel ++ ".") ∧
    pyIn "channel_not_found" "Failed to post to Slack: channel_not_found" = true ∧
    pyIn channel ("MOM successfully posted to Slack channel " ++ channel ++ ".") = true := by
  have hn := noMoms_concat s ms r hm
  refine ⟨?_, ?_, by decide, pyIn_append "MOM successfully posted to Slack channel " channel "."⟩
  · intro hh
    simp [send_to_slack, hn, ht, hh, pyTruthyBoolOpt, pyShow]
  · intro hh
    simp [send_to_slack, hn, ht, hh, pyTruthyBoolOpt]

/-- Claim C8 witness: the two concrete platform responses of the spec. -/
theorem claim_C8_witness :
    (send_to_slack ⟨some "xoxb-token", SlackHttp.body (some false) (some "channel_not_found")⟩
        "C123" c8Session).out = "Failed to post to Slack: channel_not_found" ∧
    (send_to_slack ⟨some "xoxb-token", SlackHttp.body (some true) none⟩
        "C123" c8Session).out = "MOM successfully posted to Slack channel " ++ "C123" ++ "." :=
  ⟨(claim_C8 ⟨some "xoxb-token", SlackHttp.body (some false) (some "channel_not_found")⟩
      "C123" c8Session [] c8Rec rfl (by decide)).1 rfl,
   (claim_C8 ⟨some "xoxb-token", SlackHttp.body (some true) none⟩
      "C123" c8Session [] c8Rec rfl (by decide)).2.1 rfl⟩

/-- Claim C9: `fetch_and_process_url` preserves the invariant that `moms`
is absent or non-empty, and only ever appends one record (creating the
sequence when absent); the classifier is session-pure by type
(`Session → String`), and the four executors return the session
unchanged. -/
theorem claim_C9 :
    (∀ (w : IngestWorld) (url : String) (s : Session),
      momsInvariant s → momsInvariant (fetch_and_process_url w url s).2) ∧
    (∀ (w : IngestWorld) (url : String) (s : Session),
      (fetch_and_process_url w url s).2.moms = s.moms ∨
      ∃ m, (fetch_and_process_url w url s).2.moms = some (s.moms.getD [] ++ [⟨url, m⟩])) ∧
    (∀ (w : JiraWorld) (s : Session), (create_jira_ticket w s).session = s) ∧
    (∀ (w : SchedWorld) (s : Session), (schedule_call w s).session = s) ∧
    (∀ (w : SlackWorld) (channel : String) (s : Session),
      (send_to_slack w channel s).session = s) ∧
    (∀ (w : EmailWorld) (to_email : String) (s : Session),
      (send_email w to_email s).session = s) := by
  refine ⟨?_, ?_, ?_, ?_, ?_, ?_⟩
  · intro w url s hinv
    rcases hf : w.fetch with c | e
    · by_cases hc : c = ""
      · simpa [fetch_and_process_url, hf, hc] using hinv
      · rcases hp : w.parseJson (momJsonStr w.momText) with _ | mom
        · simpa [fetch_and_process_url, hf, hc, hp] using hinv
        · refine Or.inr ⟨s.moms.getD [] ++ [⟨url, mom⟩], ?_, by simp⟩
          simp [fetch_and_process_url, hf, hc, hp]
    · simpa [fetch_and_process_url, hf] using hinv
  · intro w url s
    rcases hf : w.fetch with c | e
    · by_cases hc : c = ""
      · left
        simp [fetch_and_process_url, hf, hc]
      · rcases hp : w.parseJson (momJsonStr w.momText) with _ | mom
        · left
          simp [fetch_and_process_url, hf, hc, hp]
        · right
          exact ⟨mom, by simp [fetch_and_process_url, hf, hc, hp]⟩
    · left
      simp [fetch_and_process_url, hf]
  · intro w s
    simp only [create_jira_ticket]
    split
    · rfl
    · split
      · rfl
      · exact jiraLoop_session w s _
  · intro w s
    simp only [schedule_call]
    split
    · rfl
    · exact schedLoop_session w s _
  · intro w channel s
    simp only [send_to_slack]
    split
    · rfl
    · split
      · rfl
      · split
        · rfl
        · split <;> rfl
  · intro w to_email s
    simp only [send_email]
    split
    · rfl
    · split
      · rfl
      · split
        · rfl
        · split <;> rfl

/-- Claim C9 witness: the invariant holds after ingesting into the empty
session, and an executor leaves a concrete session untouched. -/
theorem claim_C9_witness :
    momsInvariant (fetch_and_process_url c9World "http://t" ⟨none, none⟩).2 ∧
    (create_jira_ticket ⟨⟨none, none, none⟩, JiraHttp.badJson "x"⟩ ⟨some [], none⟩).session =
      ⟨some [], none⟩ :=
  ⟨claim_C9.1 c9World "http://t" ⟨none, none⟩ (Or.inl rfl),
   claim_C9.2.2.1 ⟨⟨none, none, none⟩, JiraHttp.badJson "x"⟩ ⟨some [], none⟩⟩

/-- Claim C10: `fetch_and_process_url` is atomic — on the fetch-error,
empty-content and JSON-parse-failure paths it returns the corresponding
error string and the session completely unchanged; in particular the
already-generated summary is not appended when the MoM parse fails, since
both appends happen only after every fallible step. -/
theorem claim_C10 (w : IngestWorld) (url : String) (s : Session) :
    (∀ e, w.fetch = FetchResult.reqError e →
      fetch_and_process_url w url s = ("Error: Failed to fetch the URL. Details: " ++ e, s)) ∧
    (w.fetch = FetchResult.success "" →
      fetch_and_process_url w url s = ("Could not extract any text from the provided URL.", s)) ∧
    (∀ c, w.fetch = FetchResult.success c → c ≠ "" →
      w.parseJson (momJsonStr w.momText) = none →
      fetch_and_process_url w url s =
        ("Error: Failed to decode the MoM JSON from the model" ++ pyQuote ++ "s response.",
         s)) := by
  refine ⟨?_, ?_, ?_⟩
  · intro e he
    simp [fetch_and_process_url, he]
  · intro he
    simp [fetch_and_process_url, he]
  · intro c hc hce hp
    simp [fetch_and_process_url, hc, hce, hp]

/-- Claim C10 witness: a failing fetch into the empty session. -/
theorem claim_C10_witness :
    fetch_and_process_url c10World "http://t" ⟨none, none⟩ =
      ("Error: Failed to fetch the URL. Details: " ++ "connection timed out", ⟨none, none⟩) :=
  (claim_C10 c10World "http://t" ⟨none, none⟩).1 "connection timed out" rfl
